import Mathlib

/-!
Shallow embedding of `audit_core.py` (GA4/GTM audit core) and verification of
its specification claims.

Modelling conventions:
* A Python exception is a pair of the exception class name and its message
  (`PyExn`); fallible external calls are `Except PyExn α`.
* Python heterogeneous values (`Dict[str, Any]` evidence payloads, profile
  fields) are embedded as the inductive `PyVal`; a Python `dict` is an
  insertion-ordered association list.
* Each external control surface (GA Admin, GA Data, GTM) is abstracted as a
  record of call outcomes supplied to the audited function; the function body
  is then a line-by-line translation of the Python control flow.
-/

/-- A Python exception as observed by `except Exception as e` handlers:
the class name (`type(e).__name__`) and the message (`str(e)`). -/
structure PyExn where
  ty : String
  msg : String
deriving Repr, DecidableEq

/-- Embeds `f"{type(e).__name__}: {e}"` — the error-description format used by the
safe-call wrappers throughout `audit_core.py`. -/
def PyExn.format (e : PyExn) : String := e.ty ++ ": " ++ e.msg

/-- Embedding of Python values that occur in profile/evidence payloads. -/
inductive PyVal where
  | vnone : PyVal
  | vstr : String → PyVal
  | vint : Int → PyVal
  | vbool : Bool → PyVal
  | vlist : List PyVal → PyVal
  | vdict : List (String × PyVal) → PyVal
deriving Repr

/-- Python truthiness check used as `not in (None, "", [], {})` in
`control_property_profile` (line 529): a value counts as empty exactly when
it is `None`, the empty string, the empty list or the empty dict. -/
def PyVal.isEmptyLike : PyVal → Bool
  | .vnone => true
  | .vstr s => s = ""
  | .vlist l => l.isEmpty
  | .vdict d => d.isEmpty
  | _ => false

/-- Embeds `Optional[str] → Any`: Python `None` ⇦ `Option.none`. -/
def optStr : Option String → PyVal
  | none => PyVal.vnone
  | some s => PyVal.vstr s

/-- Embeds `Optional[bool] → Any`. -/
def optBool : Option Bool → PyVal
  | none => PyVal.vnone
  | some b => PyVal.vbool b

/-- Embeds `Optional[int] → Any`. -/
def optInt : Option Int → PyVal
  | none => PyVal.vnone
  | some n => PyVal.vint n

/-- Dict lookup `d.get(k)` (default `None`) over the association-list
embedding of a Python dict. -/
def dictGet (d : List (String × PyVal)) (k : String) : PyVal :=
  match d.find? (fun kv => kv.1 = k) with
  | some kv => kv.2
  | none => PyVal.vnone

/-- Embeds `d[k] = v` / one key of `d.update({...})` on the association-list
embedding: overwrite in place if the key exists, else append (Python dicts
keep insertion order). -/
def dictSet (d : List (String × PyVal)) (k : String) (v : PyVal) :
    List (String × PyVal) :=
  if d.any (fun kv => kv.1 = k) then
    d.map (fun kv => if kv.1 = k then (k, v) else kv)
  else
    d ++ [(k, v)]

/-- Embeds `d.update(kvs)`: apply `dictSet` for each pair in order. -/
def dictUpdate (d : List (String × PyVal)) (kvs : List (String × PyVal)) :
    List (String × PyVal) :=
  kvs.foldl (fun acc kv => dictSet acc kv.1 kv.2) d

/-- Embeds `audit_core.Finding` (lines 47-56): the normalized output record every
control emits. -/
structure Finding where
  client_name : String
  property_id : String
  control_id : String
  control_name : String
  severity : String
  status : String
  evidence : List (String × PyVal)
  recommendation : String
deriving Repr

/-- Embeds `audit_core._safe_call` (lines 106-110): run the operation, return
`(value, None)` on success or `(default, "Err: msg")` on any exception.
The operation together with its kwargs is abstracted as its outcome. -/
def safe_call {α : Type} (op : Except PyExn α) (default : Option α) :
    Option α × Option String :=
  match op with
  | .ok v => (some v, none)
  | .error e => (default, some e.format)

/-- The FIRST `audit_core._safe_list` (lines 112-116): the tuple-returning
list variant. Returns `(list(fn(**kwargs)), None)` on success and
`(default if default is not None else [], "Err: msg")` on exception.
This definition is shadowed later in the module by a second function of the
same name (lines 119-132), embedded below as `safe_list_probe`. -/
def safe_list_tuple {α : Type} (op : Except PyExn (List α))
    (default : Option (List α)) : List α × Option String :=
  match op with
  | .ok xs => (xs, none)
  | .error e => (default.getD [], some e.format)

/-- Outcome of probing one admin list method: the method may be absent from
the client object (`hasattr` false), succeed with items, or raise. -/
inductive ListMethodOutcome (α : Type) where
  | absent : ListMethodOutcome α
  | ok : List α → ListMethodOutcome α
  | err : PyExn → ListMethodOutcome α
deriving Repr, DecidableEq

/-- Result dict of the second `_safe_list`: `{available, count, items, error}`. -/
structure SafeListProbe (α : Type) where
  available : Bool
  count : Option Nat
  items : Option (List α)
  error : Option String
deriving Repr, DecidableEq

/-- The SECOND `audit_core._safe_list` (lines 119-132): probes
`admin.<method_name>` with `hasattr`, calls it with `parent=...`, and returns
the `{available, count, items, error}` dict. This definition shadows
`safe_list_tuple` at module level. The probed call is abstracted as its
`ListMethodOutcome`. -/
def safe_list_probe {α : Type} (outcome : ListMethodOutcome α)
    (method_name : String) : SafeListProbe α :=
  match outcome with
  | .absent =>
      { available := false, count := none, items := none,
        error := some ("Method not available: " ++ method_name) }
  | .ok items =>
      { available := true, count := some items.length, items := some items,
        error := none }
  | .err e =>
      { available := true, count := none, items := none,
        error := some e.format }

/-- C2: `_safe_list` (the tuple-returning variant, lines 112-116, called with
its default `default=None`) returns `(items, None)` when the wrapped
operation succeeds with `items`, and `([], message)` with the formatted
error description when it raises. (It is a total Lean function, so it never
raises itself.) -/
theorem safe_list_tuple_spec {α : Type} (op : Except PyExn (List α)) :
    (∀ xs : List α, op = .ok xs → safe_list_tuple op none = (xs, none)) ∧
    (∀ e : PyExn, op = .error e →
      safe_list_tuple op none = ([], some e.format)) := by
  constructor
  · intro xs h; subst h; rfl
  · intro e h; subst h; rfl

/-- Witness for C2 at concrete outcomes: a successful listing of two strings
and a raising call. -/
theorem safe_list_tuple_spec_witness :
    safe_list_tuple (.ok ["a", "b"]) none = (["a", "b"], none) ∧
    safe_list_tuple (α := String) (.error ⟨"ValueError", "boom"⟩) none =
      ([], some "ValueError: boom") := by
  exact ⟨(safe_list_tuple_spec (.ok ["a", "b"])).1 ["a", "b"] rfl,
    (safe_list_tuple_spec (.error ⟨"ValueError", "boom"⟩)).2
      ⟨"ValueError", "boom"⟩ rfl⟩

/-- One GA4 data stream as returned by `list_data_streams`: resource name and
type enum name (`getattr(s.type_, "name", "")`). -/
structure DataStream where
  name : String
  type_name : String
deriving Repr, DecidableEq

/-- Base property object for the A-00 check: resource `name` and
`display_name`. -/
structure PropBasic where
  name : String
  display_name : String
deriving Repr, DecidableEq

/-- One enhanced-measurement settings object (8 toggles read by
`admin_get_enhanced_measurement`). -/
structure EmsSettings where
  stream_enabled : Bool
  scrolls_enabled : Option Bool
  outbound_clicks_enabled : Option Bool
  site_search_enabled : Option Bool
  video_engagement_enabled : Option Bool
  file_downloads_enabled : Option Bool
  page_changes_enabled : Option Bool
  form_interactions_enabled : Option Bool
deriving Repr, DecidableEq

/-- One conversion event (`admin_list_key_events` summary fields). -/
structure KeyEvent where
  event_name : String
  resource_name : String
  create_time : String
  deletable : Bool
deriving Repr, DecidableEq

/-- One product-link resource summary (`name` / `display_name` / `link_id`
read with `getattr(..., None)`). -/
structure LinkItem where
  name : Option String
  display_name : Option String
  link_id : Option String
deriving Repr, DecidableEq

/-- One row of a (realtime) report: `eventName` dimension and `eventCount`
metric (already coerced with `int(... or 0)`). -/
structure ReportRow where
  eventName : String
  eventCount : Int
deriving Repr, DecidableEq

/-- Outcomes of every external call `audit_ga4_property_mvp` can make, keyed
the way the code addresses them (per stream resource name, per admin list
method name). This abstracts the GA Admin v1beta client and the GA Data
client as deterministic oracles. -/
structure MvpEnv where
  getProperty : Except PyExn PropBasic
  listDataStreams : Except PyExn (List DataStream)
  getGlobalSiteTag : String → Except PyExn String
  getEnhancedMeasurement : String → Except PyExn EmsSettings
  linkMethod : String → ListMethodOutcome LinkItem
  listConversionEvents : Except PyExn (List KeyEvent)
  runReport : Except PyExn (List ReportRow)
  runRealtimeReport : Except PyExn (List ReportRow)

/-- Embeds `admin_list_web_streams` (lines 86-93): list all data streams and keep
those whose type enum name is `WEB_DATA_STREAM`. -/
def admin_list_web_streams (env : MvpEnv) : Except PyExn (List DataStream) :=
  env.listDataStreams.map (fun streams =>
    streams.filter (fun s => s.type_name = "WEB_DATA_STREAM"))

/-- Embeds `admin_get_global_site_tag_snippet` (lines 96-104): return the snippet,
or `None` if the lookup raises. -/
def admin_get_global_site_tag_snippet (outcome : Except PyExn String) :
    Option String :=
  match outcome with
  | .ok snippet => some snippet
  | .error _ => none

/-- Embeds `admin_get_enhanced_measurement` (lines 401-415): return the settings
dict, or `None` if the lookup raises. -/
def admin_get_enhanced_measurement (outcome : Except PyExn EmsSettings) :
    Option EmsSettings :=
  match outcome with
  | .ok ems => some ems
  | .error _ => none

/-- The 8-key dict built by `admin_get_enhanced_measurement`. -/
def EmsSettings.toPyVal (e : EmsSettings) : PyVal :=
  .vdict [("stream_enabled", .vbool e.stream_enabled),
    ("scrolls_enabled", optBool e.scrolls_enabled),
    ("outbound_clicks_enabled", optBool e.outbound_clicks_enabled),
    ("site_search_enabled", optBool e.site_search_enabled),
    ("video_engagement_enabled", optBool e.video_engagement_enabled),
    ("file_downloads_enabled", optBool e.file_downloads_enabled),
    ("page_changes_enabled", optBool e.page_changes_enabled),
    ("form_interactions_enabled", optBool e.form_interactions_enabled)]

/-- The per-label `checks` mapping of `admin_get_product_links_snapshot`
(lines 358-373), in source order. -/
def product_link_checks : List (String × String) :=
  [("google_ads_links", "list_google_ads_links"),
   ("bigquery_links", "list_big_query_links"),
   ("firebase_links", "list_firebase_links"),
   ("search_ads360_links", "list_search_ads360_links"),
   ("dv360_advertiser_links", "list_display_video360_advertiser_links")]

/-- One entry of `snapshot["links"]` in
`admin_get_product_links_snapshot` (lines 391-397). -/
structure LinkEntry where
  method : String
  available : Bool
  count : Option Nat
  error : Option String
  items : Option (List LinkItem)
deriving Repr, DecidableEq

/-- Embeds `snapshot` dict of `admin_get_product_links_snapshot`. -/
structure ProductLinksSnapshot where
  parent : String
  links : List (String × LinkEntry)
deriving Repr, DecidableEq

/-- The item summary dict `{"name", "display_name", "link_id"}`. -/
def LinkItem.toPyVal (x : LinkItem) : PyVal :=
  .vdict [("name", optStr x.name), ("display_name", optStr x.display_name),
    ("link_id", optStr x.link_id)]

/-- One `snapshot["links"][label]` entry as a Python dict value. -/
def LinkEntry.toPyVal (v : LinkEntry) : PyVal :=
  .vdict [("method", .vstr v.method), ("available", .vbool v.available),
    ("count", optInt (v.count.map (fun n => (n : Int)))),
    ("error", optStr v.error),
    ("items", match v.items with
      | none => PyVal.vnone
      | some xs => PyVal.vlist (xs.map LinkItem.toPyVal))]

/-- The whole snapshot as a Python dict value (for evidence payloads). -/
def ProductLinksSnapshot.toPyVal (pl : ProductLinksSnapshot) : PyVal :=
  .vdict [("parent", .vstr pl.parent),
    ("links", .vdict (pl.links.map (fun kv => (kv.1, kv.2.toPyVal))))]

/-- Embeds `admin_get_product_links_snapshot` (lines 345-399): probe each of the
five link-list methods through the dict-returning `_safe_list`, keeping
`item_summaries = None` when `res["items"]` is falsy (absent, errored, or an
empty list — the code tests `if res["items"]:`). -/
def admin_get_product_links_snapshot (property_id : String)
    (linkMethod : String → ListMethodOutcome LinkItem) :
    ProductLinksSnapshot :=
  { parent := "properties/" ++ property_id,
    links := product_link_checks.map (fun lm =>
      let res := safe_list_probe (linkMethod lm.2) lm.2
      let item_summaries : Option (List LinkItem) :=
        match res.items with
        | none => none
        | some xs => if xs.isEmpty then none else some xs
      (lm.1, { method := lm.2, available := res.available,
               count := res.count, error := res.error,
               items := item_summaries }) ) }

/-- Embeds `admin_list_key_events` item dict. -/
def KeyEvent.toPyVal (e : KeyEvent) : PyVal :=
  .vdict [("event_name", .vstr e.event_name),
    ("resource_name", .vstr e.resource_name),
    ("create_time", .vstr e.create_time),
    ("deletable", .vbool e.deletable)]

/-- Embeds `data_top_events` (lines 436-457): run the report with the given row
`limit` and materialize `{"eventName", "eventCount"}` rows. The Data API
response is abstracted as the full ordered result table; the request `limit`
keeps its first `limit` rows. -/
def data_top_events (outcome : Except PyExn (List ReportRow)) (limit : Nat) :
    Except PyExn (List ReportRow) :=
  outcome.map (fun rows => rows.take limit)

/-- Embeds `data_realtime_events` (lines 460-478): same shape for the realtime
report. -/
def data_realtime_events (outcome : Except PyExn (List ReportRow))
    (limit : Nat) : Except PyExn (List ReportRow) :=
  outcome.map (fun rows => rows.take limit)

/-- Embeds `{"eventName": ..., "eventCount": ...}` row dict. -/
def ReportRow.toPyVal (r : ReportRow) : PyVal :=
  .vdict [("eventName", .vstr r.eventName), ("eventCount", .vint r.eventCount)]

/-- A-00 pass Finding (lines 653-660). -/
def mkA00pass (client_name property_id : String) (prop : PropBasic) : Finding :=
  { client_name, property_id, control_id := "A-00",
    control_name := "Property reachable via Admin API",
    severity := "info", status := "pass",
    evidence := [("property_name", .vstr prop.name),
      ("display_name", .vstr prop.display_name)],
    recommendation := "None." }

/-- A-00 fail Finding (lines 661-669). -/
def mkA00fail (client_name property_id : String) (e : PyExn) : Finding :=
  { client_name, property_id, control_id := "A-00",
    control_name := "Property reachable via Admin API",
    severity := "critical", status := "fail",
    evidence := [("exception_type", .vstr e.ty),
      ("exception_message", .vstr e.msg)],
    recommendation := "Fix authentication scopes and/or property access. Ensure you are using the numeric GA4 Property ID." }

/-- A-02 Finding when `admin_list_web_streams` raises (lines 674-682). -/
def mkA02exn (client_name property_id : String) (e : PyExn) : Finding :=
  { client_name, property_id, control_id := "A-02",
    control_name := "Web streams present",
    severity := "critical", status := "fail",
    evidence := [("exception_type", .vstr e.ty),
      ("exception_message", .vstr e.msg)],
    recommendation := "Confirm property access and correct GA4 Property ID." }

/-- A-02 Finding when the web-stream list is empty (lines 684-692). -/
def mkA02empty (client_name property_id : String) : Finding :=
  { client_name, property_id, control_id := "A-02",
    control_name := "Web streams present",
    severity := "critical", status := "fail",
    evidence := [("web_stream_count", .vint 0)],
    recommendation := "Create at least one GA4 Web data stream for the site and implement the Google tag." }

/-- A-02 pass Finding (lines 694-700). -/
def mkA02pass (client_name property_id : String) (web_streams : List DataStream) :
    Finding :=
  { client_name, property_id, control_id := "A-02",
    control_name := "Web streams present",
    severity := "info", status := "pass",
    evidence := [("web_stream_count", .vint web_streams.length),
      ("web_streams", .vlist (web_streams.map (fun s => .vstr s.name)))],
    recommendation := "None." }

/-- Python truthiness of the optional snippet: `not snippet` is true for
`None` and for the empty string. -/
def pyFalsyStr : Option String → Bool
  | none => true
  | some s => s = ""

/-- A-03 per-stream Finding (lines 703-712). -/
def mkA03 (client_name property_id stream_name : String)
    (snippet : Option String) : Finding :=
  { client_name, property_id, control_id := "A-03",
    control_name := "Global site tag retrievable (per web stream)",
    severity := if pyFalsyStr snippet then "medium" else "info",
    status := if pyFalsyStr snippet then "warn" else "pass",
    evidence := [("stream_name", .vstr stream_name),
      ("has_snippet", .vbool (!pyFalsyStr snippet))],
    recommendation := "If missing, confirm this is a web stream and that your auth token includes Analytics Admin-compatible scopes." }

/-- A-05 per-stream Finding (lines 714-722). -/
def mkA05 (client_name property_id stream_name : String)
    (ems : Option EmsSettings) : Finding :=
  { client_name, property_id, control_id := "A-05",
    control_name := "Enhanced measurement settings retrievable (per web stream)",
    severity := if ems.isNone then "medium" else "info",
    status := if ems.isNone then "warn" else "pass",
    evidence := [("stream_name", .vstr stream_name),
      ("enhanced_measurement",
        match ems with
        | none => PyVal.vnone
        | some e => e.toPyVal)],
    recommendation := "Review enhanced measurement toggles against measurement strategy (and confirm consent impacts)." }

/-- Embeds `link_counts` of the PL-01 control (lines 730-733): the labels whose
enumeration produced a count, with that count. -/
def pl01_link_counts (pl : ProductLinksSnapshot) : List (String × Nat) :=
  pl.links.filterMap (fun kv => kv.2.count.map (fun c => (kv.1, c)))

/-- Embeds `total_links` of the PL-01 control (line 734): the summed count across
successfully-enumerated link types. -/
def pl01_total_links (pl : ProductLinksSnapshot) : Nat :=
  ((pl01_link_counts pl).map (fun kc => kc.2)).sum

/-- Embeds `any_enumerated` of the PL-01 control (line 737). -/
def pl01_any_enumerated (pl : ProductLinksSnapshot) : Bool :=
  pl.links.any (fun kv => kv.2.count.isSome)

/-- PL-01 Finding (lines 726-762). The snapshot helper absorbs every failure
into the per-method entries, so the `except` arm at lines 763-770 is
unreachable and the control is total in the snapshot. -/
def mkPL01 (client_name property_id : String) (pl : ProductLinksSnapshot) :
    Finding :=
  let link_counts : List (String × Nat) := pl01_link_counts pl
  let total_links : Nat := pl01_total_links pl
  let any_enumerated : Bool := pl01_any_enumerated pl
  if !any_enumerated then
    { client_name, property_id, control_id := "PL-01",
      control_name := "Product links present (Google Ads / BigQuery / SA360 / DV360 / Firebase)",
      severity := "medium", status := "warn",
      evidence := [("product_links", pl.toPyVal)],
      recommendation := "Unable to enumerate product links via Admin API in this environment. Verify API enablement, permissions, and library version." }
  else
    { client_name, property_id, control_id := "PL-01",
      control_name := "Product links present (Google Ads / BigQuery / SA360 / DV360 / Firebase)",
      severity := if total_links > 0 then "info" else "medium",
      status := if total_links > 0 then "pass" else "warn",
      evidence := [("total_links", .vint total_links),
        ("link_counts",
          .vdict (link_counts.map (fun kc => (kc.1, PyVal.vint kc.2)))),
        ("details", pl.toPyVal)],
      recommendation := "If no product links are present, consider linking relevant platforms (e.g., Google Ads, BigQuery, DV360/SA360, Firebase) to improve activation and governance." }

/-- A-08 Finding (lines 774-791). -/
def mkA08 (client_name property_id : String)
    (outcome : Except PyExn (List KeyEvent)) : Finding :=
  match outcome with
  | .ok key_events =>
    { client_name, property_id, control_id := "A-08",
      control_name := "Key events configured",
      severity := if key_events.length = 0 then "high" else "info",
      status := if key_events.length = 0 then "warn" else "pass",
      evidence := [("key_event_count", .vint key_events.length),
        ("key_events", .vlist (key_events.map KeyEvent.toPyVal))],
      recommendation := "Define key events for priority actions (or document rationale if none are needed)." }
  | .error e =>
    { client_name, property_id, control_id := "A-08",
      control_name := "Key events configured",
      severity := "high", status := "warn",
      evidence := [("exception_type", .vstr e.ty),
        ("exception_message", .vstr e.msg)],
      recommendation := "Verify GA Admin permissions for conversion events." }

/-- The required core event set, in the order `sorted(...)` yields: the code
computes `sorted(list({"page_view", "session_start"} - observed))`, and since
"page_view" < "session_start" lexicographically this equals filtering the
sorted two-element list for absent names. -/
def expected_core : List String := ["page_view", "session_start"]

/-- Embeds `missing` of the D-10 control for a given materialized `top_events` list:
the required core events absent from the observed event-name set, in sorted
order. -/
def d10_missing (top_events : List ReportRow) : List String :=
  expected_core.filter (fun n => !top_events.any (fun r => r.eventName = n))

/-- D-10 Finding (lines 794-815), given the outcome of
`data_top_events(..., limit=50)`. -/
def mkD10 (client_name property_id : String) (days_lookback : Nat)
    (outcome : Except PyExn (List ReportRow)) : Finding :=
  match outcome with
  | .ok top_events =>
    let missing := d10_missing top_events
    { client_name, property_id, control_id := "D-10",
      control_name := "Core events present (last N days)",
      severity := if !missing.isEmpty then "high" else "info",
      status := if !missing.isEmpty then "fail" else "pass",
      evidence := [("window_days", .vint days_lookback),
        ("missing_core", .vlist (missing.map PyVal.vstr)),
        ("top_events", .vlist ((top_events.take 25).map ReportRow.toPyVal))],
      recommendation := "If core events are missing, verify tag deployment, consent behavior, filters, and stream selection." }
  | .error e =>
    { client_name, property_id, control_id := "D-10",
      control_name := "Core events present (last N days)",
      severity := "high", status := "warn",
      evidence := [("exception_type", .vstr e.ty),
        ("exception_message", .vstr e.msg)],
      recommendation := "Verify GA Data API access to the property." }

/-- RT-28 Finding (lines 818-836), given the outcome of
`data_realtime_events(..., limit=25)`. -/
def mkRT28 (client_name property_id : String)
    (outcome : Except PyExn (List ReportRow)) : Finding :=
  match outcome with
  | .ok rt =>
    let total : Int := (rt.map (fun r => r.eventCount)).sum
    { client_name, property_id, control_id := "RT-28",
      control_name := "Realtime activity observable",
      severity := "medium",
      status := if total > 0 then "pass" else "warn",
      evidence := [("realtime_events", .vlist (rt.map ReportRow.toPyVal)),
        ("total_eventCount", .vint total)],
      recommendation := "If empty, run a controlled test and re-check; review consent blocking." }
  | .error e =>
    { client_name, property_id, control_id := "RT-28",
      control_name := "Realtime activity observable",
      severity := "medium", status := "warn",
      evidence := [("exception_type", .vstr e.ty),
        ("exception_message", .vstr e.msg)],
      recommendation := "Verify realtime reporting is available and permissions are sufficient." }

/-- Embeds `audit_ga4_property_mvp` (lines 639-838): the short-circuit MVP control
chain A-00 → A-02 → per-stream A-03/A-05 → PL-01 → A-08 → D-10 → RT-28.
The `start`/`end` dates only parameterize the abstracted report outcome. -/
def audit_ga4_property_mvp (client_name property_id : String) (env : MvpEnv)
    (days_lookback : Nat := 30) : List Finding :=
  match env.getProperty with
  | .error e => [mkA00fail client_name property_id e]
  | .ok prop =>
    let f00 := mkA00pass client_name property_id prop
    match admin_list_web_streams env with
    | .error e => [f00, mkA02exn client_name property_id e]
    | .ok web_streams =>
      if web_streams.isEmpty then
        [f00, mkA02empty client_name property_id]
      else
        f00 :: mkA02pass client_name property_id web_streams ::
          (web_streams.flatMap (fun s =>
            [mkA03 client_name property_id s.name
               (admin_get_global_site_tag_snippet (env.getGlobalSiteTag s.name)),
             mkA05 client_name property_id s.name
               (admin_get_enhanced_measurement (env.getEnhancedMeasurement s.name))])
          ++ [mkPL01 client_name property_id
                (admin_get_product_links_snapshot property_id env.linkMethod),
              mkA08 client_name property_id env.listConversionEvents,
              mkD10 client_name property_id days_lookback
                (data_top_events env.runReport 50),
              mkRT28 client_name property_id
                (data_realtime_events env.runRealtimeReport 25)])

theorem mkPL01_control_id (c p : String) (pl : ProductLinksSnapshot) :
    (mkPL01 c p pl).control_id = "PL-01" := by
  unfold mkPL01
  dsimp only
  split <;> rfl

theorem mkA08_control_id (c p : String) (o : Except PyExn (List KeyEvent)) :
    (mkA08 c p o).control_id = "A-08" := by
  cases o <;> rfl

theorem mkD10_control_id (c p : String) (d : Nat)
    (o : Except PyExn (List ReportRow)) :
    (mkD10 c p d o).control_id = "D-10" := by
  cases o <;> rfl

theorem mkRT28_control_id (c p : String)
    (o : Except PyExn (List ReportRow)) :
    (mkRT28 c p o).control_id = "RT-28" := by
  cases o <;> rfl

theorem length_flatMap_pair {α β : Type} (g₁ g₂ : α → β) (l : List α) :
    (l.flatMap (fun s => [g₁ s, g₂ s])).length = 2 * l.length := by
  induction l with
  | nil => rfl
  | cons a t ih => simp [List.flatMap_cons, ih]; ring

theorem sum_map_length_pair {α β : Type} (g₁ g₂ : α → β) (l : List α) :
    (l.map (List.length ∘ fun s => [g₁ s, g₂ s])).sum = l.length * 2 := by
  induction l with
  | nil => rfl
  | cons a t ih => simp [ih]; ring

/-- C3: if the A-00 property-reachability check raises, the MVP chain returns
exactly one Finding — the A-00 finding with severity critical and status
fail — and in particular no findings for any other control id. -/
theorem a00_failure_single_finding (c p : String) (env : MvpEnv) (d : Nat)
    (e : PyExn) (h : env.getProperty = .error e) :
    audit_ga4_property_mvp c p env d = [mkA00fail c p e] ∧
    (mkA00fail c p e).control_id = "A-00" ∧
    (mkA00fail c p e).severity = "critical" ∧
    (mkA00fail c p e).status = "fail" ∧
    (audit_ga4_property_mvp c p env d).filter
      (fun f => f.control_id ≠ "A-00") = [] := by
  refine ⟨by simp [audit_ga4_property_mvp, h], rfl, rfl, rfl, ?_⟩
  simp [audit_ga4_property_mvp, h, List.filter, mkA00fail]

/-- Environment in which the base property fetch raises and every other
surface would succeed. -/
def envA00err : MvpEnv :=
  { getProperty := .error ⟨"PermissionDenied", "403 The caller does not have permission"⟩,
    listDataStreams := .ok [⟨"properties/9/dataStreams/1", "WEB_DATA_STREAM"⟩],
    getGlobalSiteTag := fun _ => .ok "gtag",
    getEnhancedMeasurement := fun _ => .ok ⟨true, none, none, none, none, none, none, none⟩,
    linkMethod := fun _ => .ok [],
    listConversionEvents := .ok [],
    runReport := .ok [],
    runRealtimeReport := .ok [] }

/-- Witness for C3: concrete run in which A-00 raises. -/
theorem a00_failure_single_finding_witness :
    audit_ga4_property_mvp "Acme" "123456" envA00err 30 =
      [mkA00fail "Acme" "123456"
        ⟨"PermissionDenied", "403 The caller does not have permission"⟩] ∧
    (mkA00fail "Acme" "123456"
      ⟨"PermissionDenied", "403 The caller does not have permission"⟩).control_id = "A-00" ∧
    (mkA00fail "Acme" "123456"
      ⟨"PermissionDenied", "403 The caller does not have permission"⟩).severity = "critical" ∧
    (mkA00fail "Acme" "123456"
      ⟨"PermissionDenied", "403 The caller does not have permission"⟩).status = "fail" ∧
    (audit_ga4_property_mvp "Acme" "123456" envA00err 30).filter
      (fun f => f.control_id ≠ "A-00") = [] :=
  a00_failure_single_finding "Acme" "123456" envA00err 30
    ⟨"PermissionDenied", "403 The caller does not have permission"⟩ rfl

/-- C4: behaviour of the A-02 stage once A-00 passed. Listing failure and an
empty web-stream list each append exactly one critical/fail A-02 Finding and
stop the chain at 2 findings total; a non-empty list appends an info/pass
A-02 Finding and the chain continues (all four downstream controls plus two
findings per stream are emitted). -/
theorem a02_branch_behavior (c p : String) (env : MvpEnv) (d : Nat)
    (prop : PropBasic) (hp : env.getProperty = .ok prop) :
    (∀ e : PyExn, admin_list_web_streams env = .error e →
       audit_ga4_property_mvp c p env d =
         [mkA00pass c p prop, mkA02exn c p e] ∧
       (mkA02exn c p e).control_id = "A-02" ∧
       (mkA02exn c p e).severity = "critical" ∧
       (mkA02exn c p e).status = "fail") ∧
    (admin_list_web_streams env = .ok [] →
       audit_ga4_property_mvp c p env d =
         [mkA00pass c p prop, mkA02empty c p] ∧
       (mkA02empty c p).control_id = "A-02" ∧
       (mkA02empty c p).severity = "critical" ∧
       (mkA02empty c p).status = "fail") ∧
    (∀ ws : List DataStream, admin_list_web_streams env = .ok ws → ws ≠ [] →
       (audit_ga4_property_mvp c p env d).take 2 =
         [mkA00pass c p prop, mkA02pass c p ws] ∧
       (mkA02pass c p ws).control_id = "A-02" ∧
       (mkA02pass c p ws).severity = "info" ∧
       (mkA02pass c p ws).status = "pass" ∧
       (audit_ga4_property_mvp c p env d).length = 6 + 2 * ws.length) := by
  refine ⟨?_, ?_, ?_⟩
  · intro e h
    exact ⟨by simp [audit_ga4_property_mvp, hp, h], rfl, rfl, rfl⟩
  · intro h
    exact ⟨by simp [audit_ga4_property_mvp, hp, h], rfl, rfl, rfl⟩
  · intro ws h hne
    cases ws with
    | nil => exact absurd rfl hne
    | cons s t =>
      refine ⟨by simp [audit_ga4_property_mvp, hp, h], rfl, rfl, rfl, ?_⟩
      simp [audit_ga4_property_mvp, hp, h, sum_map_length_pair]
      omega

/-- Property used by the happy-path environments. -/
def propOK : PropBasic := ⟨"properties/123456", "Acme Site"⟩

/-- Environment in which A-00 passes but listing data streams raises. -/
def envA02err : MvpEnv :=
  { getProperty := .ok propOK,
    listDataStreams := .error ⟨"ServiceUnavailable", "503"⟩,
    getGlobalSiteTag := fun _ => .ok "gtag",
    getEnhancedMeasurement := fun _ => .ok ⟨true, none, none, none, none, none, none, none⟩,
    linkMethod := fun _ => .ok [],
    listConversionEvents := .ok [],
    runReport := .ok [],
    runRealtimeReport := .ok [] }

/-- Environment in which streams list fine but none is a web stream. -/
def envA02empty : MvpEnv :=
  { getProperty := .ok propOK,
    listDataStreams := .ok [⟨"properties/123456/dataStreams/7", "ANDROID_APP_DATA_STREAM"⟩],
    getGlobalSiteTag := fun _ => .ok "gtag",
    getEnhancedMeasurement := fun _ => .ok ⟨true, none, none, none, none, none, none, none⟩,
    linkMethod := fun _ => .ok [],
    listConversionEvents := .ok [],
    runReport := .ok [],
    runRealtimeReport := .ok [] }

/-- The single web stream of the happy-path environment. -/
def streamOK : DataStream := ⟨"properties/123456/dataStreams/1", "WEB_DATA_STREAM"⟩

/-- Fully healthy environment: one web stream, every surface succeeds. -/
def envHappy : MvpEnv :=
  { getProperty := .ok propOK,
    listDataStreams := .ok [streamOK],
    getGlobalSiteTag := fun _ => .ok "gtag-snippet",
    getEnhancedMeasurement := fun _ => .ok ⟨true, some true, some true, some true, some true, some true, some true, some true⟩,
    linkMethod := fun m => if m = "list_google_ads_links" then .ok [⟨some "properties/123456/googleAdsLinks/1", none, none⟩] else .absent,
    listConversionEvents := .ok [⟨"purchase", "properties/123456/conversionEvents/1", "2024-01-01", true⟩],
    runReport := .ok [⟨"page_view", 100⟩, ⟨"session_start", 80⟩],
    runRealtimeReport := .ok [⟨"page_view", 3⟩] }

/-- Witness for C4: the three A-02 branches at concrete environments. -/
theorem a02_branch_behavior_witness :
    (audit_ga4_property_mvp "Acme" "123456" envA02err 30 =
        [mkA00pass "Acme" "123456" propOK,
         mkA02exn "Acme" "123456" ⟨"ServiceUnavailable", "503"⟩] ∧
      (mkA02exn "Acme" "123456" ⟨"ServiceUnavailable", "503"⟩).control_id = "A-02" ∧
      (mkA02exn "Acme" "123456" ⟨"ServiceUnavailable", "503"⟩).severity = "critical" ∧
      (mkA02exn "Acme" "123456" ⟨"ServiceUnavailable", "503"⟩).status = "fail") ∧
    (audit_ga4_property_mvp "Acme" "123456" envA02empty 30 =
        [mkA00pass "Acme" "123456" propOK, mkA02empty "Acme" "123456"] ∧
      (mkA02empty "Acme" "123456").control_id = "A-02" ∧
      (mkA02empty "Acme" "123456").severity = "critical" ∧
      (mkA02empty "Acme" "123456").status = "fail") ∧
    ((audit_ga4_property_mvp "Acme" "123456" envHappy 30).take 2 =
        [mkA00pass "Acme" "123456" propOK, mkA02pass "Acme" "123456" [streamOK]] ∧
      (mkA02pass "Acme" "123456" [streamOK]).control_id = "A-02" ∧
      (mkA02pass "Acme" "123456" [streamOK]).severity = "info" ∧
      (mkA02pass "Acme" "123456" [streamOK]).status = "pass" ∧
      (audit_ga4_property_mvp "Acme" "123456" envHappy 30).length = 6 + 2 * [streamOK].length) :=
  ⟨(a02_branch_behavior "Acme" "123456" envA02err 30 propOK rfl).1
      ⟨"ServiceUnavailable", "503"⟩ rfl,
   (a02_branch_behavior "Acme" "123456" envA02empty 30 propOK rfl).2.1 rfl,
   (a02_branch_behavior "Acme" "123456" envHappy 30 propOK rfl).2.2
      [streamOK] rfl (List.cons_ne_nil _ _)⟩

theorem filter_flatMap_pair_of_true {α β : Type} (g₁ g₂ : α → β) (q : β → Bool)
    (h₁ : ∀ s, q (g₁ s) = true) (h₂ : ∀ s, q (g₂ s) = true) (l : List α) :
    (l.flatMap (fun s => [g₁ s, g₂ s])).filter q =
      l.flatMap (fun s => [g₁ s, g₂ s]) := by
  induction l with
  | nil => rfl
  | cons a t ih =>
    simp [List.flatMap_cons, List.filter_append, List.filter_cons, h₁, h₂, ih]

/-- C8: with a reachable property and a non-empty web-stream list, the chain
emits exactly one A-03 and one A-05 Finding per web stream (2 × N in total),
and those findings are medium/warn exactly when the per-stream lookup came
back with nothing (a Python-falsy snippet for A-03, `None` for A-05) and
info/pass otherwise. -/
theorem per_stream_findings_shape (c p : String) (env : MvpEnv) (d : Nat)
    (prop : PropBasic) (ws : List DataStream)
    (hp : env.getProperty = .ok prop)
    (hw : admin_list_web_streams env = .ok ws) (hne : ws ≠ []) :
    (audit_ga4_property_mvp c p env d).filter
        (fun f => f.control_id = "A-03" || f.control_id = "A-05") =
      ws.flatMap (fun s =>
        [mkA03 c p s.name
           (admin_get_global_site_tag_snippet (env.getGlobalSiteTag s.name)),
         mkA05 c p s.name
           (admin_get_enhanced_measurement (env.getEnhancedMeasurement s.name))]) ∧
    ((audit_ga4_property_mvp c p env d).filter
        (fun f => f.control_id = "A-03" || f.control_id = "A-05")).length =
      2 * ws.length ∧
    (∀ (sn : String) (snippet : Option String),
      (pyFalsyStr snippet = true →
        (mkA03 c p sn snippet).severity = "medium" ∧
        (mkA03 c p sn snippet).status = "warn") ∧
      (pyFalsyStr snippet = false →
        (mkA03 c p sn snippet).severity = "info" ∧
        (mkA03 c p sn snippet).status = "pass")) ∧
    (∀ (sn : String) (ems : Option EmsSettings),
      (ems = none →
        (mkA05 c p sn ems).severity = "medium" ∧
        (mkA05 c p sn ems).status = "warn") ∧
      (∀ e : EmsSettings, ems = some e →
        (mkA05 c p sn ems).severity = "info" ∧
        (mkA05 c p sn ems).status = "pass")) := by
  have hfil : (audit_ga4_property_mvp c p env d).filter
      (fun f => f.control_id = "A-03" || f.control_id = "A-05") =
    ws.flatMap (fun s =>
      [mkA03 c p s.name
         (admin_get_global_site_tag_snippet (env.getGlobalSiteTag s.name)),
       mkA05 c p s.name
         (admin_get_enhanced_measurement (env.getEnhancedMeasurement s.name))]) := by
    cases ws with
    | nil => exact absurd rfl hne
    | cons s t =>
      simp [audit_ga4_property_mvp, hp, hw, List.filter_cons, List.filter_append,
        mkA00pass, mkA02pass, mkA03, mkA05,
        mkPL01_control_id, mkA08_control_id, mkD10_control_id, mkRT28_control_id,
        filter_flatMap_pair_of_true
          (fun st : DataStream => mkA03 c p st.name
            (admin_get_global_site_tag_snippet (env.getGlobalSiteTag st.name)))
          (fun st : DataStream => mkA05 c p st.name
            (admin_get_enhanced_measurement (env.getEnhancedMeasurement st.name)))
          (fun f => f.control_id = "A-03" || f.control_id = "A-05")
          (fun st => by simp [mkA03]) (fun st => by simp [mkA05])]
      rintro a x hx (rfl | rfl) <;> simp
  refine ⟨hfil, by rw [hfil]; exact length_flatMap_pair _ _ ws, ?_, ?_⟩
  · intro sn snippet
    constructor
    · intro h; exact ⟨by simp [mkA03, h], by simp [mkA03, h]⟩
    · intro h; exact ⟨by simp [mkA03, h], by simp [mkA03, h]⟩
  · intro sn ems
    constructor
    · intro h; subst h; exact ⟨rfl, rfl⟩
    · intro e h; subst h; exact ⟨rfl, rfl⟩

/-- An arbitrary concrete enhanced-measurement settings value. -/
def emsAllOn : EmsSettings :=
  ⟨true, some true, some true, some true, some true, some true, some true, some true⟩

/-- Witness for C8: the happy-path environment with one web stream, plus the
per-stream severity/status rule at concrete lookup results. -/
theorem per_stream_findings_shape_witness :
    (audit_ga4_property_mvp "Acme" "123456" envHappy 30).filter
        (fun f => f.control_id = "A-03" || f.control_id = "A-05") =
      [streamOK].flatMap (fun s =>
        [mkA03 "Acme" "123456" s.name
           (admin_get_global_site_tag_snippet (envHappy.getGlobalSiteTag s.name)),
         mkA05 "Acme" "123456" s.name
           (admin_get_enhanced_measurement
             (envHappy.getEnhancedMeasurement s.name))]) ∧
    ((audit_ga4_property_mvp "Acme" "123456" envHappy 30).filter
        (fun f => f.control_id = "A-03" || f.control_id = "A-05")).length =
      2 * [streamOK].length ∧
    ((mkA03 "Acme" "123456" "s1" none).severity = "medium" ∧
      (mkA03 "Acme" "123456" "s1" none).status = "warn") ∧
    ((mkA03 "Acme" "123456" "s1" (some "gtag")).severity = "info" ∧
      (mkA03 "Acme" "123456" "s1" (some "gtag")).status = "pass") ∧
    ((mkA05 "Acme" "123456" "s1" none).severity = "medium" ∧
      (mkA05 "Acme" "123456" "s1" none).status = "warn") ∧
    ((mkA05 "Acme" "123456" "s1" (some emsAllOn)).severity = "info" ∧
      (mkA05 "Acme" "123456" "s1" (some emsAllOn)).status = "pass") := by
  have h := per_stream_findings_shape "Acme" "123456" envHappy 30 propOK
    [streamOK] rfl rfl (List.cons_ne_nil _ _)
  exact ⟨h.1, h.2.1,
    (h.2.2.1 "s1" none).1 (by decide),
    (h.2.2.1 "s1" (some "gtag")).2 (by simp [pyFalsyStr]),
    (h.2.2.2 "s1" none).1 rfl,
    (h.2.2.2 "s1" (some emsAllOn)).2 emsAllOn rfl⟩

/-- C5: for the D-10 control, a successful query yields status fail and
severity high exactly when some required core event (page_view,
session_start) is absent from the observed event names, with evidence
`missing_core` listing the absent required events in sorted order; both
present yields pass/info with empty `missing_core`; a raising query yields
severity high with status warn. -/
theorem d10_status_missing_core (c p : String) (d : Nat) :
    (∀ tes : List ReportRow,
      (((mkD10 c p d (.ok tes)).status = "fail" ∧
        (mkD10 c p d (.ok tes)).severity = "high") ↔
        ∃ n ∈ expected_core, ∀ r ∈ tes, r.eventName ≠ n) ∧
      (((mkD10 c p d (.ok tes)).status = "pass" ∧
        (mkD10 c p d (.ok tes)).severity = "info") ↔
        ∀ n ∈ expected_core, ∃ r ∈ tes, r.eventName = n) ∧
      dictGet (mkD10 c p d (.ok tes)).evidence "missing_core" =
        .vlist ((expected_core.filter
          (fun n => tes.all (fun r => r.eventName ≠ n))).map PyVal.vstr)) ∧
    (∀ e : PyExn,
      (mkD10 c p d (.error e)).severity = "high" ∧
      (mkD10 c p d (.error e)).status = "warn") := by
  refine ⟨?_, fun e => ⟨rfl, rfl⟩⟩
  intro tes
  have hfilter : d10_missing tes =
      expected_core.filter (fun n => tes.all fun r => r.eventName ≠ n) := by
    apply List.filter_congr
    intro n _
    simp [List.all_eq_not_any_not]
  have hchar : (d10_missing tes = []) ↔
      ∀ n ∈ expected_core, ∃ r ∈ tes, r.eventName = n := by
    simp [d10_missing, List.filter_eq_nil_iff, List.any_eq_true]
  have hev : dictGet (mkD10 c p d (.ok tes)).evidence "missing_core" =
      .vlist ((expected_core.filter
        (fun n => tes.all (fun r => r.eventName ≠ n))).map PyVal.vstr) := by
    rw [← hfilter]
    simp [mkD10, dictGet]
  cases hdm : d10_missing tes with
  | nil =>
    have hstat : (mkD10 c p d (.ok tes)).status = "pass" := by
      simp [mkD10, hdm]
    have hsev : (mkD10 c p d (.ok tes)).severity = "info" := by
      simp [mkD10, hdm]
    refine ⟨?_, ?_, hev⟩
    · rw [hstat, hsev]
      constructor
      · rintro ⟨h1, -⟩; exact absurd h1 (by decide)
      · rintro ⟨n, hn, habs⟩
        obtain ⟨r, hr, hre⟩ := hchar.mp hdm n hn
        exact absurd hre (habs r hr)
    · rw [hstat, hsev]
      exact iff_of_true ⟨rfl, rfl⟩ (hchar.mp hdm)
  | cons a t =>
    have hstat : (mkD10 c p d (.ok tes)).status = "fail" := by
      simp [mkD10, hdm]
    have hsev : (mkD10 c p d (.ok tes)).severity = "high" := by
      simp [mkD10, hdm]
    have hamem : a ∈ expected_core ∧ (!tes.any fun r => r.eventName = a) = true := by
      have ha : a ∈ d10_missing tes := by rw [hdm]; exact List.mem_cons_self a t
      simpa [d10_missing, List.mem_filter] using ha
    have habs : ∀ r ∈ tes, r.eventName ≠ a := by
      have h2 := hamem.2
      simp only [Bool.not_eq_true', List.any_eq_false, decide_eq_false_iff_not] at h2
      exact fun r hr => by simpa using h2 r hr
    refine ⟨?_, ?_, hev⟩
    · rw [hstat, hsev]
      exact iff_of_true ⟨rfl, rfl⟩ ⟨a, hamem.1, habs⟩
    · rw [hstat, hsev]
      constructor
      · rintro ⟨h1, -⟩; exact absurd h1 (by decide)
      · intro hall
        obtain ⟨r, hr, hre⟩ := hall a hamem.1
        exact absurd hre (habs r hr)

/-- Witness for C5: observed only page_view ⇒ fail/high with missing_core
[session_start]; both core events observed ⇒ pass/info with empty
missing_core; a raising query ⇒ high/warn. -/
theorem d10_status_missing_core_witness :
    ((mkD10 "Acme" "123456" 30 (.ok [⟨"page_view", 100⟩])).status = "fail" ∧
      (mkD10 "Acme" "123456" 30 (.ok [⟨"page_view", 100⟩])).severity = "high") ∧
    dictGet (mkD10 "Acme" "123456" 30
        (.ok [⟨"page_view", 100⟩])).evidence "missing_core" =
      .vlist [PyVal.vstr "session_start"] ∧
    ((mkD10 "Acme" "123456" 30
        (.ok [⟨"page_view", 100⟩, ⟨"session_start", 80⟩])).status = "pass" ∧
      (mkD10 "Acme" "123456" 30
        (.ok [⟨"page_view", 100⟩, ⟨"session_start", 80⟩])).severity = "info") ∧
    dictGet (mkD10 "Acme" "123456" 30
        (.ok [⟨"page_view", 100⟩, ⟨"session_start", 80⟩])).evidence "missing_core" =
      .vlist [] ∧
    ((mkD10 "Acme" "123456" 30 (.error ⟨"PermissionDenied", "403"⟩)).severity = "high" ∧
      (mkD10 "Acme" "123456" 30 (.error ⟨"PermissionDenied", "403"⟩)).status = "warn") := by
  have h := d10_status_missing_core "Acme" "123456" 30
  refine ⟨(h.1 [⟨"page_view", 100⟩]).1.mpr (by decide),
    ((h.1 [⟨"page_view", 100⟩]).2.2).trans (by rfl),
    (h.1 [⟨"page_view", 100⟩, ⟨"session_start", 80⟩]).2.1.mpr (by decide),
    ((h.1 [⟨"page_view", 100⟩, ⟨"session_start", 80⟩]).2.2).trans (by rfl),
    h.2 ⟨"PermissionDenied", "403"⟩⟩

/-- C9: the PL-01 status policy over the five product-link enumerations.
None of the five producing a count — each either raised or was unavailable
on the client — ⇒ warn/medium with the unable-to-enumerate recommendation;
at least one succeeding with summed count 0 ⇒ warn/medium; summed count
positive ⇒ pass/info. -/
theorem pl01_status_policy (c p : String)
    (lm : String → ListMethodOutcome LinkItem) :
    ((∀ pr ∈ product_link_checks,
        lm pr.2 = .absent ∨ ∃ e : PyExn, lm pr.2 = .err e) →
      (mkPL01 c p (admin_get_product_links_snapshot p lm)).status = "warn" ∧
      (mkPL01 c p (admin_get_product_links_snapshot p lm)).severity = "medium" ∧
      (mkPL01 c p (admin_get_product_links_snapshot p lm)).recommendation =
        "Unable to enumerate product links via Admin API in this environment. Verify API enablement, permissions, and library version.") ∧
    ((∃ pr ∈ product_link_checks, ∃ items : List LinkItem, lm pr.2 = .ok items) →
      pl01_total_links (admin_get_product_links_snapshot p lm) = 0 →
      (mkPL01 c p (admin_get_product_links_snapshot p lm)).status = "warn" ∧
      (mkPL01 c p (admin_get_product_links_snapshot p lm)).severity = "medium") ∧
    (pl01_total_links (admin_get_product_links_snapshot p lm) > 0 →
      (mkPL01 c p (admin_get_product_links_snapshot p lm)).status = "pass" ∧
      (mkPL01 c p (admin_get_product_links_snapshot p lm)).severity = "info") := by
  refine ⟨?_, ?_, ?_⟩
  · intro hall
    have hae : pl01_any_enumerated (admin_get_product_links_snapshot p lm) = false := by
      simp only [pl01_any_enumerated, List.any_eq_false]
      intro kv hkv
      simp only [admin_get_product_links_snapshot, List.mem_map] at hkv
      obtain ⟨pr, hpr, rfl⟩ := hkv
      rcases hall pr hpr with ha | ⟨e, he⟩
      · simp [ha, safe_list_probe]
      · simp [he, safe_list_probe]
    refine ⟨by simp [mkPL01, hae], by simp [mkPL01, hae], by simp [mkPL01, hae]⟩
  · intro hok htot
    obtain ⟨pr, hpr, items, hitems⟩ := hok
    have hae : pl01_any_enumerated (admin_get_product_links_snapshot p lm) = true := by
      simp only [pl01_any_enumerated, List.any_eq_true]
      simp only [admin_get_product_links_snapshot, List.mem_map]
      exact ⟨_, ⟨pr, hpr, rfl⟩, by simp [hitems, safe_list_probe]⟩
    exact ⟨by simp [mkPL01, hae, htot], by simp [mkPL01, hae, htot]⟩
  · intro htot
    have hae : pl01_any_enumerated (admin_get_product_links_snapshot p lm) = true := by
      by_contra hcon
      have hf : pl01_any_enumerated (admin_get_product_links_snapshot p lm) = false := by
        revert hcon
        cases pl01_any_enumerated (admin_get_product_links_snapshot p lm) <;> simp
      have hnil : pl01_link_counts (admin_get_product_links_snapshot p lm) = [] := by
        simp only [pl01_any_enumerated, List.any_eq_false] at hf
        simp only [pl01_link_counts, List.filterMap_eq_nil_iff]
        intro kv hkv
        have hns := hf kv hkv
        cases hc : kv.2.count with
        | none => simp
        | some v => rw [hc] at hns; simp at hns
      have hzero : pl01_total_links (admin_get_product_links_snapshot p lm) = 0 := by
        simp [pl01_total_links, hnil]
      omega
    exact ⟨by simp [mkPL01, hae, htot], by simp [mkPL01, hae, htot]⟩

/-- Link-method oracle whose five enumerations all raise. -/
def lmAllErr : String → ListMethodOutcome LinkItem :=
  fun _ => .err ⟨"PermissionDenied", "403"⟩

/-- Link-method oracle on whose client none of the five list methods exists
(`hasattr` false for all). -/
def lmAllAbsent : String → ListMethodOutcome LinkItem := fun _ => .absent

/-- Link-method oracle mixing the two no-count modes: the Firebase method is
absent from the client, the other four raise. -/
def lmMixed : String → ListMethodOutcome LinkItem := fun m =>
  if m = "list_firebase_links" then .absent
  else .err ⟨"PermissionDenied", "403"⟩

/-- Link-method oracle where only the Google Ads enumeration succeeds, with
zero links; the rest raise. -/
def lmOneEmpty : String → ListMethodOutcome LinkItem := fun m =>
  if m = "list_google_ads_links" then .ok []
  else .err ⟨"PermissionDenied", "403"⟩

/-- Link-method oracle where only the BigQuery enumeration succeeds, with one
link; the rest are unavailable. -/
def lmOneLink : String → ListMethodOutcome LinkItem := fun m =>
  if m = "list_big_query_links" then
    .ok [⟨some "properties/123456/bigQueryLinks/1", none, none⟩]
  else .absent

/-- Witness for C9: the no-count scenario in its all-raised, all-absent and
mixed absent/raised variants, the success-with-zero scenario, and the
positive-count scenario, at concrete oracles. -/
theorem pl01_status_policy_witness :
    ((mkPL01 "Acme" "123456"
        (admin_get_product_links_snapshot "123456" lmAllErr)).status = "warn" ∧
      (mkPL01 "Acme" "123456"
        (admin_get_product_links_snapshot "123456" lmAllErr)).severity = "medium" ∧
      (mkPL01 "Acme" "123456"
        (admin_get_product_links_snapshot "123456" lmAllErr)).recommendation =
        "Unable to enumerate product links via Admin API in this environment. Verify API enablement, permissions, and library version.") ∧
    ((mkPL01 "Acme" "123456"
        (admin_get_product_links_snapshot "123456" lmAllAbsent)).status = "warn" ∧
      (mkPL01 "Acme" "123456"
        (admin_get_product_links_snapshot "123456" lmAllAbsent)).severity = "medium" ∧
      (mkPL01 "Acme" "123456"
        (admin_get_product_links_snapshot "123456" lmAllAbsent)).recommendation =
        "Unable to enumerate product links via Admin API in this environment. Verify API enablement, permissions, and library version.") ∧
    ((mkPL01 "Acme" "123456"
        (admin_get_product_links_snapshot "123456" lmMixed)).status = "warn" ∧
      (mkPL01 "Acme" "123456"
        (admin_get_product_links_snapshot "123456" lmMixed)).severity = "medium" ∧
      (mkPL01 "Acme" "123456"
        (admin_get_product_links_snapshot "123456" lmMixed)).recommendation =
        "Unable to enumerate product links via Admin API in this environment. Verify API enablement, permissions, and library version.") ∧
    ((mkPL01 "Acme" "123456"
        (admin_get_product_links_snapshot "123456" lmOneEmpty)).status = "warn" ∧
      (mkPL01 "Acme" "123456"
        (admin_get_product_links_snapshot "123456" lmOneEmpty)).severity = "medium") ∧
    ((mkPL01 "Acme" "123456"
        (admin_get_product_links_snapshot "123456" lmOneLink)).status = "pass" ∧
      (mkPL01 "Acme" "123456"
        (admin_get_product_links_snapshot "123456" lmOneLink)).severity = "info") :=
  ⟨(pl01_status_policy "Acme" "123456" lmAllErr).1
      (fun _ _ => Or.inr ⟨⟨"PermissionDenied", "403"⟩, rfl⟩),
   (pl01_status_policy "Acme" "123456" lmAllAbsent).1
      (fun _ _ => Or.inl rfl),
   (pl01_status_policy "Acme" "123456" lmMixed).1
      (fun pr hpr => by
        fin_cases hpr <;>
          first
            | exact Or.inl rfl
            | exact Or.inr ⟨⟨"PermissionDenied", "403"⟩, rfl⟩),
   (pl01_status_policy "Acme" "123456" lmOneEmpty).2.1
      ⟨("google_ads_links", "list_google_ads_links"), by decide, [], rfl⟩
      (by rfl),
   (pl01_status_policy "Acme" "123456" lmOneLink).2.2 (by decide)⟩

theorem filter_flatMap_pair_of_false {α β : Type} (g₁ g₂ : α → β) (q : β → Bool)
    (h₁ : ∀ s, q (g₁ s) = false) (h₂ : ∀ s, q (g₂ s) = false) (l : List α) :
    (l.flatMap (fun s => [g₁ s, g₂ s])).filter q = [] := by
  induction l with
  | nil => rfl
  | cons a t ih =>
    simp [List.flatMap_cons, List.filter_append, List.filter_cons, h₁, h₂, ih]

/-- C10: the D-10 control observes only the report rows returned under the
fixed request limit of 50 and stores at most the first 25 of them as
evidence; a required core event present in the full result table but outside
the first 50 rows is therefore reported as missing. -/
theorem d10_limit_truncation (c p : String) (env : MvpEnv) (d : Nat)
    (prop : PropBasic) (ws : List DataStream) (rows : List ReportRow)
    (hp : env.getProperty = .ok prop)
    (hw : admin_list_web_streams env = .ok ws) (hne : ws ≠ [])
    (hr : env.runReport = .ok rows) :
    (audit_ga4_property_mvp c p env d).filter
        (fun f => f.control_id = "D-10") =
      [mkD10 c p d (.ok (rows.take 50))] ∧
    dictGet (mkD10 c p d (.ok (rows.take 50))).evidence "top_events" =
      .vlist (((rows.take 50).take 25).map ReportRow.toPyVal) ∧
    (∀ n ∈ expected_core, (∀ r ∈ rows.take 50, r.eventName ≠ n) →
      (∃ r ∈ rows, r.eventName = n) →
      n ∈ d10_missing (rows.take 50) ∧
      (mkD10 c p d (.ok (rows.take 50))).status = "fail") := by
  refine ⟨?_, ?_, ?_⟩
  · cases ws with
    | nil => exact absurd rfl hne
    | cons s t =>
      simp [audit_ga4_property_mvp, hp, hw, hr, data_top_events, Except.map,
        List.filter_cons, List.filter_append,
        mkA00pass, mkA02pass, mkA03, mkA05, mkPL01_control_id, mkA08_control_id,
        mkD10_control_id, mkRT28_control_id,
        filter_flatMap_pair_of_false
          (fun st : DataStream => mkA03 c p st.name
            (admin_get_global_site_tag_snippet (env.getGlobalSiteTag st.name)))
          (fun st : DataStream => mkA05 c p st.name
            (admin_get_enhanced_measurement (env.getEnhancedMeasurement st.name)))
          (fun f => f.control_id = "D-10")
          (fun st => by simp [mkA03]) (fun st => by simp [mkA05])]
      rintro a x hx (rfl | rfl) <;> simp
  · simp [mkD10, dictGet]
  · intro n hn habs _
    have hmem : n ∈ d10_missing (rows.take 50) := by
      simp only [d10_missing, List.mem_filter]
      refine ⟨hn, ?_⟩
      simp only [Bool.not_eq_true', List.any_eq_false, decide_eq_false_iff_not]
      exact fun r hr' => by simpa using habs r hr'
    refine ⟨hmem, ?_⟩
    cases hdm : d10_missing (rows.take 50) with
    | nil => rw [hdm] at hmem; exact absurd hmem (List.not_mem_nil n)
    | cons a t => simp [mkD10, hdm]

/-- The full ordered report table of the truncation witness: 50 page_view
rows followed by a session_start row at position 50 (outside the limit). -/
def rows51 : List ReportRow :=
  List.replicate 50 ⟨"page_view", 1⟩ ++ [⟨"session_start", 5⟩]

/-- Happy-path environment whose full report table is `rows51`. -/
def envTrunc : MvpEnv :=
  { envHappy with runReport := .ok rows51 }

/-- Witness for C10: with session_start as the 51st row of the full table,
the D-10 finding in the chain is computed from the first 50 rows only and reports
session_start as missing. -/
theorem d10_limit_truncation_witness :
    (audit_ga4_property_mvp "Acme" "123456" envTrunc 30).filter
        (fun f => f.control_id = "D-10") =
      [mkD10 "Acme" "123456" 30 (.ok (rows51.take 50))] ∧
    dictGet (mkD10 "Acme" "123456" 30
        (.ok (rows51.take 50))).evidence "top_events" =
      .vlist (((rows51.take 50).take 25).map ReportRow.toPyVal) ∧
    ("session_start" ∈ d10_missing (rows51.take 50) ∧
      (mkD10 "Acme" "123456" 30 (.ok (rows51.take 50))).status = "fail") := by
  have h := d10_limit_truncation "Acme" "123456" envTrunc 30 propOK
    [streamOK] rows51 rfl rfl (List.cons_ne_nil _ _) rfl
  exact ⟨h.1, h.2.1,
    h.2.2 "session_start" (by decide) (by decide)
      ⟨⟨"session_start", 5⟩, by simp [rows51], rfl⟩⟩

/-- Base property metadata read field-by-field with `getattr` (lines
160-171). Proto string and enum-name fields always yield strings (possibly
empty); the two timestamps pass through `str(...) if ... else None`. -/
structure PropMeta where
  display_name : String
  name : String
  property_type : String
  parent : String
  create_time : Option String
  update_time : Option String
  industry_category : String
  time_zone : String
  currency_code : String
  service_level : String
deriving Repr, DecidableEq

/-- Data-retention settings fields (lines 195-200). -/
structure RetentionMeta where
  retention_duration : String
  reset_user_data_on_new_activity : Bool
deriving Repr, DecidableEq

/-- Google-signals settings fields (lines 210-213). -/
structure SignalsMeta where
  state : String
  consent : String
deriving Repr, DecidableEq

/-- Attribution settings fields (lines 223-227). -/
structure AttributionMeta where
  acquisition_window : String
  other_window : String
  reporting_model : String
deriving Repr, DecidableEq

/-- One change record inside a change-history event (lines 317-327). -/
structure ChangeItem where
  resource_name : Option String
  change_type : Option String
  old_value : Option String
  new_value : Option String
deriving Repr, DecidableEq

/-- One change-history event (lines 304-330). -/
structure ChangeEvent where
  event_time : Option String
  actor_type : Option String
  action : Option String
  changes : List ChangeItem
deriving Repr, DecidableEq

/-- The change dict built at lines 322-327. -/
def ChangeItem.toPyVal (ch : ChangeItem) : PyVal :=
  .vdict [("resource_name", optStr ch.resource_name),
    ("change_type", optStr ch.change_type),
    ("old_value", optStr ch.old_value),
    ("new_value", optStr ch.new_value)]

/-- The ev_dict built at lines 308-313 with its changes list. -/
def ChangeEvent.toPyVal (ev : ChangeEvent) : PyVal :=
  .vdict [("event_time", optStr ev.event_time),
    ("actor_type", optStr ev.actor_type),
    ("action", optStr ev.action),
    ("changes", .vlist (ev.changes.map ChangeItem.toPyVal))]

/-- Python `s.startswith(pre)`: prefix test on the character list. -/
def pyStartsWith (s pre : String) : Bool := pre.data.isPrefixOf s.data

/-- Contiguous-sublist test on character lists. -/
def listInfixOf (pat : List Char) : List Char → Bool
  | [] => pat.isEmpty
  | a :: t => pat.isPrefixOf (a :: t) || listInfixOf pat t

/-- Python substring test `pat in s`. -/
def strContains (s pat : String) : Bool := listInfixOf pat.data s.data

/-- Python `s.strip()`: drop whitespace from both ends. -/
def pyStrip (s : String) : String :=
  ⟨((s.data.dropWhile Char.isWhitespace).reverse.dropWhile
      Char.isWhitespace).reverse⟩

/-- Whether a change-history event touches this property (lines 316-321):
some change has a resource name containing `properties/<id>`. -/
def changeEventIncluded (property_id : String) (ev : ChangeEvent) : Bool :=
  ev.changes.any (fun ch =>
    match ch.resource_name with
    | some rn => strContains rn ("properties/" ++ property_id)
    | none => false)

/-- The per-surface diagnostics dict `{"errors": ..., "availability": ...}`
(line 151). -/
structure Diag where
  errors : List (String × String)
  availability : List (String × String)
deriving Repr, DecidableEq

/-- Diagnostics as a Python dict value (for the P-01 evidence payload). -/
def Diag.toPyVal (d : Diag) : PyVal :=
  .vdict [("errors", .vdict (d.errors.map (fun kv => (kv.1, PyVal.vstr kv.2)))),
    ("availability",
      .vdict (d.availability.map (fun kv => (kv.1, PyVal.vstr kv.2))))]

/-- Outcomes of every external call `get_property_profile` can make, one per
sub-surface, abstracting the two Admin clients and the Data client. -/
structure ProfileEnv where
  getProperty : Except PyExn PropMeta
  getAccount : Except PyExn String
  getDataRetention : Except PyExn RetentionMeta
  getGoogleSignals : Except PyExn SignalsMeta
  getAttribution : Except PyExn AttributionMeta
  eventCountRows : Except PyExn (List Int)
  searchChangeHistory : Except PyExn (List ChangeEvent)

/-- Embeds `profile["parent"].split("/", 1)[1]` (line 177): everything after the
first slash. Only evaluated under the guard that the parent starts with
`accounts/`, whose single slash sits at index 8, so this equals dropping the
9-character prefix. -/
def accountIdOfParent (parent : String) : String := parent.drop 9

/-- The Python-level `TypeError` raised by the rollup/subproperty branches
(lines 231-234 and 249-252): they call `_safe_list(bound_method,
request=...)`, but the module-level `_safe_list` is the second definition
with signature `(admin, method_name, *, parent)`, so the call itself fails
to bind before any exception handler is involved. -/
def safeListCallTypeError : PyExn :=
  ⟨"TypeError", "_safe_list() got an unexpected keyword argument \x27request\x27"⟩

/-- Embeds `get_property_profile` (lines 134-341): assemble the property profile
from the independent sub-surfaces, recording each failure in diagnostics.
The rollup/subproperty branches raise `safeListCallTypeError` (see its doc
comment), modelled as an `Except.error` result. -/
def get_property_profile (property_id : String) (env : ProfileEnv)
    (change_history_days_lookback : Nat := 90) :
    Except PyExn (List (String × PyVal) × Diag) :=
  let profile0 : List (String × PyVal) := [("property_id", .vstr property_id)]
  match env.getProperty with
  | .error e =>
    .ok (profile0, ⟨[("get_property_v1beta", e.format)], []⟩)
  | .ok prop =>
    let profile1 := dictUpdate profile0
      [("property_name", .vstr prop.display_name),
       ("property_resource_name", .vstr prop.name),
       ("property_type", .vstr prop.property_type),
       ("parent", .vstr prop.parent),
       ("create_time", optStr prop.create_time),
       ("update_time", optStr prop.update_time),
       ("industry_category", .vstr prop.industry_category),
       ("time_zone", .vstr prop.time_zone),
       ("currency_code", .vstr prop.currency_code),
       ("service_level", .vstr prop.service_level)]
    let accountStep :
        Option String × Option String × List (String × String) :=
      if pyStartsWith prop.parent "accounts/" then
        match env.getAccount with
        | .ok disp => (some (accountIdOfParent prop.parent), some disp, [])
        | .error e => (some (accountIdOfParent prop.parent), none,
            [("get_account_v1beta", e.format)])
      else (none, none, [])
    let account_id := accountStep.1
    let account_name := accountStep.2.1
    let errs1 := accountStep.2.2
    let profile2 := dictUpdate profile1
      [("account_id", optStr account_id), ("account_name", optStr account_name)]
    let retentionStep : List (String × PyVal) × List (String × String) :=
      match env.getDataRetention with
      | .error e =>
        (profile2, errs1 ++ [("get_data_retention_settings_v1beta", e.format)])
      | .ok dr =>
        (dictUpdate profile2
          [("data_retention_duration", .vstr dr.retention_duration),
           ("reset_user_data_on_new_activity",
             .vbool dr.reset_user_data_on_new_activity),
           ("user_retention_duration", .vstr dr.retention_duration)], errs1)
    let profile3 := retentionStep.1
    let errs2 := retentionStep.2
    let signalsStep : List (String × PyVal) × List (String × String) :=
      match env.getGoogleSignals with
      | .error e =>
        (profile3, errs2 ++ [("get_google_signals_settings_v1alpha", e.format)])
      | .ok gs =>
        (dictUpdate profile3
          [("google_signals_state", .vstr gs.state),
           ("google_signals_consent", .vstr gs.consent)], errs2)
    let profile4 := signalsStep.1
    let errs3 := signalsStep.2
    let attrStep : List (String × PyVal) × List (String × String) :=
      match env.getAttribution with
      | .error e =>
        (profile4, errs3 ++ [("get_attribution_settings_v1alpha", e.format)])
      | .ok attr =>
        (dictUpdate profile4
          [("acquisition_event_lookback_window", .vstr attr.acquisition_window),
           ("other_conversion_event_lookback_window", .vstr attr.other_window),
           ("reporting_attribution_model", .vstr attr.reporting_model)], errs3)
    let profile5 := attrStep.1
    let errs4 := attrStep.2
    if prop.property_type = "ROLLUP" then
      .error safeListCallTypeError
    else if prop.property_type = "SUBPROPERTY" then
      .error safeListCallTypeError
    else
      let eventStep : List (String × PyVal) × List (String × String) :=
        match env.eventCountRows with
        | .error e =>
          (profile5, errs4 ++ [("data_api_eventCount_7d", e.format)])
        | .ok rows =>
          let total : Int := match rows with | [] => 0 | v :: _ => v
          (dictUpdate profile5 [("number_of_events_past_7_days", .vint total)],
           errs4)
      let profile6 := eventStep.1
      let errs5 := eventStep.2
      match account_id with
      | some _ =>
        match env.searchChangeHistory with
        | .error e =>
          .ok (profile6,
            ⟨errs5 ++ [("search_change_history_events_v1alpha", e.format)], []⟩)
        | .ok events =>
          let filtered :=
            (events.filter (changeEventIncluded property_id)).map
              ChangeEvent.toPyVal
          .ok (dictUpdate profile6
            [("change_history_window_days",
               .vint change_history_days_lookback),
             ("change_history_event_count", .vint filtered.length),
             ("change_history_events_sample", .vlist (filtered.take 25))],
            ⟨errs5, []⟩)
      | none =>
        .ok (dictUpdate profile6 [("change_history_event_count", PyVal.vnone)],
          ⟨errs5, [("change_history", "skipped_no_account_parent")]⟩)

/-- The `core_fields` list of `control_property_profile` (lines 516-527),
verbatim and in source order: 19 field names. -/
def core_fields : List String :=
  ["account_id", "account_name",
   "property_name", "property_id",
   "property_type", "parent",
   "create_time", "update_time",
   "industry_category", "time_zone", "currency_code", "service_level",
   "number_of_events_past_7_days",
   "google_signals_state",
   "data_retention_duration", "reset_user_data_on_new_activity",
   "acquisition_event_lookback_window",
   "other_conversion_event_lookback_window",
   "reporting_attribution_model"]

/-- Embeds `present` (line 529): core fields whose profile value is not in
`(None, "", [], \x7b\x7d)`. -/
def p01_present (profile : List (String × PyVal)) : List String :=
  core_fields.filter (fun f => !(dictGet profile f).isEmptyLike)

/-- Embeds `missing` (line 530): core fields not listed in `present`. -/
def p01_missing (profile : List (String × PyVal)) : List String :=
  core_fields.filter (fun f => !(p01_present profile).contains f)

/-- Embeds `status` (line 535): pass when at most 3 core fields are missing. -/
def p01_status (profile : List (String × PyVal)) : String :=
  if (p01_missing profile).length ≤ 3 then "pass" else "warn"

/-- Embeds `severity` (line 536). -/
def p01_severity (profile : List (String × PyVal)) : String :=
  if p01_status profile = "pass" then "info" else "medium"

/-- The single P-01 Finding built at lines 538-549. -/
def p01Finding (client_name property_id : String)
    (profile : List (String × PyVal)) (diag : Diag) : Finding :=
  { client_name, property_id, control_id := "P-01",
    control_name := "Property profile available (metadata + retention + signals + attribution + usage + change history)",
    severity := p01_severity profile, status := p01_status profile,
    evidence := [("present_fields", .vlist ((p01_present profile).map PyVal.vstr)),
      ("missing_fields", .vlist ((p01_missing profile).map PyVal.vstr)),
      ("profile", .vdict profile),
      ("diagnostics", diag.toPyVal)],
    recommendation := "If fields are missing, confirm Admin API access, required API enablement, and that the service account has Viewer access on the property (and Account for change history)." }

/-- Embeds `control_property_profile` (lines 495-549): run the profile extractor and
wrap its result in the single P-01 Finding. An exception raised inside
`get_property_profile` (the rollup/subproperty `TypeError`) propagates. -/
def control_property_profile (client_name property_id : String)
    (env : ProfileEnv) : Except PyExn (List Finding) :=
  match get_property_profile property_id env 90 with
  | .error e => .error e
  | .ok pd => .ok [p01Finding client_name property_id pd.1 pd.2]

theorem p01_missing_eq_filter_empty (profile : List (String × PyVal)) :
    p01_missing profile =
      core_fields.filter (fun f => (dictGet profile f).isEmptyLike) := by
  apply List.filter_congr
  intro f hf
  cases he : (dictGet profile f).isEmptyLike with
  | true =>
    have hnot : f ∉ p01_present profile := by
      simp [p01_present, List.mem_filter, he]
    simp [hnot, he]
  | false =>
    have hmem : f ∈ p01_present profile := by
      simp [p01_present, List.mem_filter, he, hf]
    simp [hmem, he]

/-- C6 counterexample: the `core_fields` list checked by the P-01
completeness policy has 19 entries, not 18. -/
theorem core_fields_not_eighteen :
    core_fields.length = 19 ∧ core_fields.length ≠ 18 := by decide

/-- C6 (amended): the P-01 threshold policy over the 19 core field names:
a profile with exactly 3 of them empty yields pass/info, one with exactly 4
empty yields warn/medium, and these are the status/severity of the single
Finding the control returns. -/
theorem p01_completeness_threshold (c p : String) (env : ProfileEnv)
    (pd : List (String × PyVal) × Diag)
    (h : get_property_profile p env 90 = .ok pd) :
    control_property_profile c p env = .ok [p01Finding c p pd.1 pd.2] ∧
    ((core_fields.filter (fun f => (dictGet pd.1 f).isEmptyLike)).length = 3 →
      (p01Finding c p pd.1 pd.2).status = "pass" ∧
      (p01Finding c p pd.1 pd.2).severity = "info") ∧
    ((core_fields.filter (fun f => (dictGet pd.1 f).isEmptyLike)).length = 4 →
      (p01Finding c p pd.1 pd.2).status = "warn" ∧
      (p01Finding c p pd.1 pd.2).severity = "medium") := by
  refine ⟨by simp [control_property_profile, h], ?_, ?_⟩
  · intro h3
    have hm : (p01_missing pd.1).length = 3 := by
      rw [p01_missing_eq_filter_empty]; exact h3
    exact ⟨by simp [p01Finding, p01_status, hm],
      by simp [p01Finding, p01_severity, p01_status, hm]⟩
  · intro h4
    have hm : (p01_missing pd.1).length = 4 := by
      rw [p01_missing_eq_filter_empty]; exact h4
    exact ⟨by simp [p01Finding, p01_status, hm],
      by simp [p01Finding, p01_severity, p01_status, hm]⟩

/-- A fully-populated ordinary property. -/
def propFull : PropMeta :=
  { display_name := "Acme Site", name := "properties/123456",
    property_type := "PROPERTY_TYPE_ORDINARY", parent := "accounts/42",
    create_time := some "2023-01-01 00:00:00+00:00",
    update_time := some "2024-01-01 00:00:00+00:00",
    industry_category := "TECHNOLOGY", time_zone := "America/New_York",
    currency_code := "USD", service_level := "GOOGLE_ANALYTICS_STANDARD" }

/-- Profile environment in which only the attribution fetch fails: exactly
the 3 attribution core fields end up empty. -/
def envP3 : ProfileEnv :=
  { getProperty := .ok propFull,
    getAccount := .ok "Acme Inc",
    getDataRetention := .ok ⟨"FOURTEEN_MONTHS", false⟩,
    getGoogleSignals := .ok ⟨"GOOGLE_SIGNALS_ENABLED", "GOOGLE_SIGNALS_CONSENT_CONSENTED"⟩,
    getAttribution := .error ⟨"PermissionDenied", "403"⟩,
    eventCountRows := .ok [1234],
    searchChangeHistory := .ok [] }

/-- Profile environment in which attribution and google-signals fetches both
fail: exactly 4 core fields end up empty. -/
def envP4 : ProfileEnv :=
  { getProperty := .ok propFull,
    getAccount := .ok "Acme Inc",
    getDataRetention := .ok ⟨"FOURTEEN_MONTHS", false⟩,
    getGoogleSignals := .error ⟨"PermissionDenied", "403"⟩,
    getAttribution := .error ⟨"PermissionDenied", "403"⟩,
    eventCountRows := .ok [1234],
    searchChangeHistory := .ok [] }

/-- The evaluated profile/diagnostics of `envP3` (3 empty core fields). -/
def pdP3 : List (String × PyVal) × Diag :=
  ([("property_id", PyVal.vstr "123456"),
    ("property_name", PyVal.vstr "Acme Site"),
    ("property_resource_name", PyVal.vstr "properties/123456"),
    ("property_type", PyVal.vstr "PROPERTY_TYPE_ORDINARY"),
    ("parent", PyVal.vstr "accounts/42"),
    ("create_time", PyVal.vstr "2023-01-01 00:00:00+00:00"),
    ("update_time", PyVal.vstr "2024-01-01 00:00:00+00:00"),
    ("industry_category", PyVal.vstr "TECHNOLOGY"),
    ("time_zone", PyVal.vstr "America/New_York"),
    ("currency_code", PyVal.vstr "USD"),
    ("service_level", PyVal.vstr "GOOGLE_ANALYTICS_STANDARD"),
    ("account_id", PyVal.vstr "42"),
    ("account_name", PyVal.vstr "Acme Inc"),
    ("data_retention_duration", PyVal.vstr "FOURTEEN_MONTHS"),
    ("reset_user_data_on_new_activity", PyVal.vbool false),
    ("user_retention_duration", PyVal.vstr "FOURTEEN_MONTHS"),
    ("google_signals_state", PyVal.vstr "GOOGLE_SIGNALS_ENABLED"),
    ("google_signals_consent", PyVal.vstr "GOOGLE_SIGNALS_CONSENT_CONSENTED"),
    ("number_of_events_past_7_days", PyVal.vint 1234),
    ("change_history_window_days", PyVal.vint 90),
    ("change_history_event_count", PyVal.vint 0),
    ("change_history_events_sample", PyVal.vlist [])],
   ⟨[("get_attribution_settings_v1alpha", "PermissionDenied: 403")], []⟩)

/-- The evaluated profile/diagnostics of `envP4` (4 empty core fields). -/
def pdP4 : List (String × PyVal) × Diag :=
  ([("property_id", PyVal.vstr "123456"),
    ("property_name", PyVal.vstr "Acme Site"),
    ("property_resource_name", PyVal.vstr "properties/123456"),
    ("property_type", PyVal.vstr "PROPERTY_TYPE_ORDINARY"),
    ("parent", PyVal.vstr "accounts/42"),
    ("create_time", PyVal.vstr "2023-01-01 00:00:00+00:00"),
    ("update_time", PyVal.vstr "2024-01-01 00:00:00+00:00"),
    ("industry_category", PyVal.vstr "TECHNOLOGY"),
    ("time_zone", PyVal.vstr "America/New_York"),
    ("currency_code", PyVal.vstr "USD"),
    ("service_level", PyVal.vstr "GOOGLE_ANALYTICS_STANDARD"),
    ("account_id", PyVal.vstr "42"),
    ("account_name", PyVal.vstr "Acme Inc"),
    ("data_retention_duration", PyVal.vstr "FOURTEEN_MONTHS"),
    ("reset_user_data_on_new_activity", PyVal.vbool false),
    ("user_retention_duration", PyVal.vstr "FOURTEEN_MONTHS"),
    ("number_of_events_past_7_days", PyVal.vint 1234),
    ("change_history_window_days", PyVal.vint 90),
    ("change_history_event_count", PyVal.vint 0),
    ("change_history_events_sample", PyVal.vlist [])],
   ⟨[("get_google_signals_settings_v1alpha", "PermissionDenied: 403"),
     ("get_attribution_settings_v1alpha", "PermissionDenied: 403")], []⟩)

/-- Witness for C6 (amended): 3 empty core fields give pass/info, 4 give
warn/medium. -/
theorem p01_completeness_threshold_witness :
    (control_property_profile "Acme" "123456" envP3).map
      (fun fs => fs.map (fun f => (f.status, f.severity))) =
      .ok [("pass", "info")] ∧
    (control_property_profile "Acme" "123456" envP4).map
      (fun fs => fs.map (fun f => (f.status, f.severity))) =
      .ok [("warn", "medium")] := by
  obtain ⟨hc3, ht3, -⟩ :=
    p01_completeness_threshold "Acme" "123456" envP3 pdP3 (by rfl)
  obtain ⟨hc4, -, ht4⟩ :=
    p01_completeness_threshold "Acme" "123456" envP4 pdP4 (by rfl)
  obtain ⟨hs3, hv3⟩ := ht3 (by decide)
  obtain ⟨hs4, hv4⟩ := ht4 (by decide)
  constructor
  · rw [hc3]; simp [Except.map, hs3, hv3]
  · rw [hc4]; simp [Except.map, hs4, hv4]

/-- C7: when the base property fetch fails, the profile is exactly
`[("property_id", id)]`, the error is recorded under `get_property_v1beta`
in diagnostics, no further sub-fetch outcome is consulted (the result does
not depend on any other field of the environment), and the P-01 control
still returns its single Finding without raising. -/
theorem profile_base_fetch_failure (c p : String) (env : ProfileEnv)
    (e : PyExn) (h : env.getProperty = .error e) :
    get_property_profile p env 90 =
      .ok ([("property_id", .vstr p)],
        ⟨[("get_property_v1beta", e.format)], []⟩) ∧
    control_property_profile c p env =
      .ok [p01Finding c p [("property_id", .vstr p)]
        ⟨[("get_property_v1beta", e.format)], []⟩] := by
  have h1 : get_property_profile p env 90 =
      .ok ([("property_id", .vstr p)],
        ⟨[("get_property_v1beta", e.format)], []⟩) := by
    simp [get_property_profile, h]
  exact ⟨h1, by simp [control_property_profile, h1]⟩

/-- Profile environment whose base property fetch raises (other surfaces
would succeed, but are never consulted). -/
def envBaseErr : ProfileEnv :=
  { getProperty := .error ⟨"NotFound", "404 Requested entity was not found"⟩,
    getAccount := .ok "Acme Inc",
    getDataRetention := .ok ⟨"FOURTEEN_MONTHS", false⟩,
    getGoogleSignals := .ok ⟨"GOOGLE_SIGNALS_ENABLED", "GOOGLE_SIGNALS_CONSENT_CONSENTED"⟩,
    getAttribution := .ok ⟨"ACQUISITION_CONVERSION_EVENT_LOOKBACK_WINDOW_30_DAYS", "CONVERSION_EVENT_LOOKBACK_WINDOW_90_DAYS", "PAID_AND_ORGANIC_CHANNELS_DATA_DRIVEN"⟩,
    eventCountRows := .ok [1234],
    searchChangeHistory := .ok [] }

/-- Witness for C7: a concrete failing base fetch. -/
theorem profile_base_fetch_failure_witness :
    get_property_profile "123456" envBaseErr 90 =
      .ok ([("property_id", .vstr "123456")],
        ⟨[("get_property_v1beta", "NotFound: 404 Requested entity was not found")], []⟩) ∧
    control_property_profile "Acme" "123456" envBaseErr =
      .ok [p01Finding "Acme" "123456" [("property_id", .vstr "123456")]
        ⟨[("get_property_v1beta", "NotFound: 404 Requested entity was not found")], []⟩] :=
  profile_base_fetch_failure "Acme" "123456" envBaseErr
    ⟨"NotFound", "404 Requested entity was not found"⟩ rfl

/-- One custom dimension summary (`admin_list_custom_dimensions`,
lines 551-567). -/
structure CustomDimension where
  name : Option String
  parameter_name : Option String
  display_name : Option String
  description : Option String
  scope : Option String
  disallow_ads_personalization : Option Bool
deriving Repr, DecidableEq

/-- One custom metric summary (`admin_list_custom_metrics`,
lines 570-587). -/
structure CustomMetric where
  name : Option String
  parameter_name : Option String
  display_name : Option String
  description : Option String
  scope : Option String
  measurement_unit : Option String
  restricted_metric_type : Option String
deriving Repr, DecidableEq

/-- Custom-dimension summary dict. -/
def CustomDimension.toPyVal (x : CustomDimension) : PyVal :=
  .vdict [("name", optStr x.name), ("parameter_name", optStr x.parameter_name),
    ("display_name", optStr x.display_name),
    ("description", optStr x.description), ("scope", optStr x.scope),
    ("disallow_ads_personalization", optBool x.disallow_ads_personalization)]

/-- Custom-metric summary dict. -/
def CustomMetric.toPyVal (x : CustomMetric) : PyVal :=
  .vdict [("name", optStr x.name), ("parameter_name", optStr x.parameter_name),
    ("display_name", optStr x.display_name),
    ("description", optStr x.description), ("scope", optStr x.scope),
    ("measurement_unit", optStr x.measurement_unit),
    ("restricted_metric_type", optStr x.restricted_metric_type)]

/-- Embeds `control_custom_definitions_inventory` (lines 589-636): each enumeration
is independently guarded; warn/medium only when BOTH fail. -/
def control_custom_definitions_inventory (client_name property_id : String)
    (dims : Except PyExn (List CustomDimension))
    (mets : Except PyExn (List CustomMetric)) : List Finding :=
  let dimStep : List CustomDimension × Option String :=
    match dims with
    | .ok ds => (ds, none)
    | .error e => ([], some e.format)
  let custom_dims := dimStep.1
  let dims_err := dimStep.2
  let metStep : List CustomMetric × Option String :=
    match mets with
    | .ok ms => (ms, none)
    | .error e => ([], some e.format)
  let custom_mets := metStep.1
  let mets_err := metStep.2
  let failedBoth := dims_err.isSome && mets_err.isSome
  { client_name, property_id, control_id := "CMCD-01",
    control_name := "Custom definitions inventory (custom dimensions + custom metrics)",
    severity := if failedBoth then "medium" else "info",
    status := if failedBoth then "warn" else "pass",
    evidence := [
      ("custom_dimensions_count",
        if dims_err.isSome then PyVal.vnone
        else PyVal.vint custom_dims.length),
      ("custom_metrics_count",
        if mets_err.isSome then PyVal.vnone else PyVal.vint custom_mets.length),
      ("custom_dimensions", .vlist (custom_dims.map CustomDimension.toPyVal)),
      ("custom_metrics", .vlist (custom_mets.map CustomMetric.toPyVal)),
      ("errors", .vdict [("custom_dimensions", optStr dims_err),
        ("custom_metrics", optStr mets_err)])],
    recommendation :=
      if failedBoth then
        "Unable to enumerate custom definitions. Confirm Admin API access and that the service account has Viewer on the property."
      else "None." } :: []

/-- One GTM container summary (`gtm_access_check`, line 858). -/
structure GtmContainer where
  name : Option String
  publicId : Option String
  path : Option String
deriving Repr, DecidableEq

/-- Container summary dict. -/
def GtmContainer.toPyVal (x : GtmContainer) : PyVal :=
  .vdict [("name", optStr x.name), ("publicId", optStr x.publicId),
    ("path", optStr x.path)]

/-- Embeds `gtm_access_check` (lines 841-870). -/
def gtm_access_check (client_name property_id gtm_account_id : String)
    (containers : Except PyExn (List GtmContainer)) : List Finding :=
  match containers with
  | .ok cs =>
    [{ client_name, property_id, control_id := "GTM-01",
       control_name := "GTM access and container inventory",
       severity := "info", status := "pass",
       evidence := [("gtm_account_id", .vstr gtm_account_id),
         ("container_count", .vint cs.length),
         ("containers", .vlist (cs.map GtmContainer.toPyVal))],
       recommendation := "None." }]
  | .error e =>
    [{ client_name, property_id, control_id := "GTM-01",
       control_name := "GTM access and container inventory",
       severity := "medium", status := "warn",
       evidence := [("gtm_account_id", .vstr gtm_account_id),
         ("exception_type", .vstr e.ty), ("exception_message", .vstr e.msg)],
       recommendation := "Grant read access to GTM account/container or provide the correct GTM account ID." }]

/-- One entry of the `clients` list passed to `run_audit` (lines 886-889):
the three optional keys read with `c.get(...)`. -/
structure AuditTarget where
  client_name : Option String
  property_id : Option String
  gtm_account_id : Option String

/-- All external-call outcomes for one target, across the four controls the
batch runner invokes. -/
structure TargetEnv where
  profileEnv : ProfileEnv
  customDimensions : Except PyExn (List CustomDimension)
  customMetrics : Except PyExn (List CustomMetric)
  mvpEnv : MvpEnv
  gtmContainers : Except PyExn (List GtmContainer)

/-- Python `(x or default)` on an optional string: `None` and the empty
string are falsy. -/
def pyOrDefault (v : Option String) (d : String) : String :=
  match v with
  | none => d
  | some s => if s = "" then d else s

/-- Embeds `run_audit` (lines 877-948): per target in order, P-01, then CMCD-01,
then the MVP chain, then GTM-01 when a GTM account id is present; targets
with a blank property id are skipped. An exception raised inside a control
(the P-01 rollup/subproperty `TypeError`) propagates out of the runner,
modelled as an `Except.error` result. The final `findings_to_df` tabulation
is the identity on the findings list. -/
def run_audit (targets : List (AuditTarget × TargetEnv))
    (days_lookback : Nat := 30) : Except PyExn (List Finding) :=
  targets.foldlM (fun acc te =>
    let client_name := pyStrip (pyOrDefault te.1.client_name "Unknown")
    let property_id := pyStrip (pyOrDefault te.1.property_id "")
    let gtm_account_id := pyStrip (pyOrDefault te.1.gtm_account_id "")
    if property_id = "" then .ok acc
    else
      match control_property_profile client_name property_id
        te.2.profileEnv with
      | .error e => .error e
      | .ok p01 =>
        let cmcd := control_custom_definitions_inventory client_name
          property_id te.2.customDimensions te.2.customMetrics
        let mvp := audit_ga4_property_mvp client_name property_id
          te.2.mvpEnv days_lookback
        let gtm :=
          if gtm_account_id ≠ "" then
            gtm_access_check client_name property_id gtm_account_id
              te.2.gtmContainers
          else []
        .ok (acc ++ p01 ++ cmcd ++ mvp ++ gtm)) []

/-- A rollup property (the type-string the code compares against at
line 230). -/
def propRollup : PropMeta := { propFull with property_type := "ROLLUP" }

/-- A subproperty (line 248 comparison). -/
def propSubprop : PropMeta := { propFull with property_type := "SUBPROPERTY" }

/-- Profile environment for a ROLLUP property on which every control-surface
call succeeds. -/
def envRollup : ProfileEnv := { envP3 with
  getProperty := .ok propRollup,
  getAttribution := .ok ⟨"ACQUISITION_CONVERSION_EVENT_LOOKBACK_WINDOW_30_DAYS",
    "CONVERSION_EVENT_LOOKBACK_WINDOW_90_DAYS",
    "PAID_AND_ORGANIC_CHANNELS_DATA_DRIVEN"⟩ }

/-- Profile environment for a SUBPROPERTY, all surfaces succeeding. -/
def envSubprop : ProfileEnv := { envRollup with getProperty := .ok propSubprop }

/-- Target environment for the rollup target, healthy on every other
surface. -/
def targetEnvRollup : TargetEnv :=
  { profileEnv := envRollup,
    customDimensions := .ok [],
    customMetrics := .ok [],
    mvpEnv := envHappy,
    gtmContainers := .ok [] }

/-- C1 (refuting evaluation): for a ROLLUP or SUBPROPERTY property whose
control-surface calls all succeed, `control_property_profile` raises the
`_safe_list` call-binding `TypeError` (the module-level `_safe_list` is the
dict-probe redefinition, not the tuple variant the rollup/subproperty call
sites were written for), and `run_audit` propagates it to the caller
instead of recording it as evidence. -/
theorem rollup_typeerror_propagates :
    control_property_profile "Acme" "123456" envRollup =
      .error safeListCallTypeError ∧
    control_property_profile "Acme" "123456" envSubprop =
      .error safeListCallTypeError ∧
    run_audit [(⟨some "Acme", some "123456", none⟩, targetEnvRollup)] 30 =
      .error safeListCallTypeError :=
  ⟨by rfl, by rfl, by rfl⟩
